import Mathlib

/-!
Verification of the interaction / scheduling core of the multi-agent CRM
pipeline (src/Agents/interaction_agent.py, scheduler_agent.py,
supervisor_agent.py).

The Python code is shallowly embedded: pure string/date manipulation is
translated function-by-function; external collaborators (the LLM, SMTP,
IMAP fetching, the fuzzy dateutil parser, json.loads, the Google Calendar
API) are parameters (oracles) supplied to the embedded functions, since the
source calls them through narrow interfaces and catches their exceptions.
Python exceptions that escape a function are modeled with Except; exceptions
caught locally are modeled by Option-returning oracles.

String primitives (strip, lower, substring containment, slicing) are
re-implemented over Char lists so that every definition is executable and
kernel-reducible.
-/

/-! ## Generic string utilities (Python str.strip / str.lower / `in`) -/

/-- Python whitespace for str.strip and regex \s. -/
def isPySpace (c : Char) : Bool :=
  c = ' ' || c = '\t' || c = '\n' || c = '\r' || c = '\x0b' || c = '\x0c'

/-- str.strip on a char list. -/
def trimChars (cs : List Char) : List Char :=
  ((cs.dropWhile isPySpace).reverse.dropWhile isPySpace).reverse

/-- Python str.strip. -/
def strTrim (s : String) : String := String.mk (trimChars s.toList)

/-- Python str.lower (ASCII). -/
def strLower (s : String) : String := String.mk (s.toList.map Char.toLower)

/-- Does pat occur as a contiguous sublist of the list? -/
def occursIn (pat : List Char) : List Char → Bool
  | [] => pat.isEmpty
  | c :: rest => ((c :: rest).take pat.length == pat) || occursIn pat rest

/-- Python `pat in hay` on strings. -/
def containsSub (hay pat : String) : Bool := occursIn pat.toList hay.toList

/-! ## datetime model

Python naive datetimes are tuples (year, month, day, hour, minute, second,
microsecond) compared lexicographically; timedelta(days=n) is calendar day
addition. -/

structure DateTime where
  year : Nat
  month : Nat
  day : Nat
  hour : Nat
  minute : Nat
  second : Nat
  usec : Nat
deriving DecidableEq

/-- Lexicographic datetime comparison (Python datetime <). -/
def dtLt (a b : DateTime) : Bool :=
  if a.year < b.year then true else if b.year < a.year then false
  else if a.month < b.month then true else if b.month < a.month then false
  else if a.day < b.day then true else if b.day < a.day then false
  else if a.hour < b.hour then true else if b.hour < a.hour then false
  else if a.minute < b.minute then true else if b.minute < a.minute then false
  else if a.second < b.second then true else if b.second < a.second then false
  else if a.usec < b.usec then true else false

def isLeap (y : Nat) : Bool := (y % 4 = 0 && y % 100 != 0) || y % 400 = 0

def daysInMonth (y m : Nat) : Nat :=
  if m = 2 then (if isLeap y then 29 else 28)
  else if m = 4 || m = 6 || m = 9 || m = 11 then 30
  else 31

/-- timedelta(days=1) on a (valid) naive datetime. -/
def addOneDay (d : DateTime) : DateTime :=
  if d.day < daysInMonth d.year d.month then { d with day := d.day + 1 }
  else if d.month < 12 then { d with month := d.month + 1, day := 1 }
  else { d with year := d.year + 1, month := 1, day := 1 }

/-- timedelta(days=n). -/
def addDays (d : DateTime) : Nat → DateTime
  | 0 => d
  | n + 1 => addDays (addOneDay d) n

/-- datetime.replace(year=y): raises ValueError (modeled as none) when the
day is out of range for the month in the new year (Feb 29 to non-leap). -/
def replaceYear (d : DateTime) (y : Nat) : Option DateTime :=
  if d.day ≤ daysInMonth y d.month then some { d with year := y } else none

/-- today.replace(hour=h, minute=m, second=0, microsecond=0) + timedelta(days=1),
raising ValueError (Except.error) on out-of-range hour or minute, as in
extract_meeting_datetime's "tomorrow" branch where the exception is uncaught. -/
def replaceTimePlus1Day (today : DateTime) (h m : Nat) : Except String DateTime :=
  if h ≤ 23 ∧ m ≤ 59 then
    .ok (addDays { today with hour := h, minute := m, second := 0, usec := 0 } 1)
  else .error "ValueError"

/-! ## scheduler_agent.extract_meeting_datetime (DateTimeResolver)

The regex r"(\d{1,2})(?:[:.](\d{2}))?\s*(am|pm)?" applied with re.search:
the leftmost match starts at the first digit of the text; it greedily takes
up to two digits, an optional colon/dot plus exactly two digits as minutes,
optional whitespace, and an optional am/pm marker. -/

def digitVal (c : Char) : Nat := c.toNat - '0'.toNat

/-- The optional (am|pm) group at the current position. -/
def parseMarker (cs : List Char) : Option String :=
  if cs.take 2 = ['a', 'm'] then some "am"
  else if cs.take 2 = ['p', 'm'] then some "pm"
  else none

/-- Parse the time regex at a position whose first char c is a digit:
returns (hour, minute-or-0, optional am/pm marker). -/
def parseTime (c : Char) (rest : List Char) : Nat × Nat × Option String :=
  let hr :=
    match rest with
    | d2 :: r2 => if d2.isDigit then (10 * digitVal c + digitVal d2, r2) else (digitVal c, rest)
    | [] => (digitVal c, rest)
  let mn :=
    match hr.2 with
    | sep :: a :: b :: r3 =>
      if (sep = ':' || sep = '.') && a.isDigit && b.isDigit then (10 * digitVal a + digitVal b, r3)
      else (0, hr.2)
    | _ => (0, hr.2)
  let rest3 := mn.2.dropWhile isPySpace
  (hr.1, mn.1, parseMarker rest3)

/-- re.search of the time regex: first digit anchors the match. -/
def findTimeAux : List Char → Option (Nat × Nat × Option String)
  | [] => none
  | c :: rest => if c.isDigit then some (parseTime c rest) else findTimeAux rest

def findTime (s : String) : Option (Nat × Nat × Option String) := findTimeAux s.toList

/-- extract_meeting_datetime (scheduler_agent.py lines 59-87). The fuzzy
dateutil parse of the third rule is an external collaborator, passed as
`oracle` (none models both "no parse" and a raised parser exception, which
the source catches). The Except layer carries the uncaught ValueError that
today.replace can raise in the "tomorrow" branch. -/
def extract_meeting_datetime (oracle : String → Option DateTime)
    (reply_text : String) (today : DateTime) : Except String (Option DateTime) :=
  if reply_text = "" then .ok none
  else
    let txt := strTrim (strLower reply_text)
    if containsSub txt "tomorrow" then
      match findTime txt with
      | some (hour, minute, marker) =>
        let hour2 := if marker = some "pm" ∧ hour < 12 then hour + 12 else hour
        match replaceTimePlus1Day today hour2 minute with
        | .ok t => .ok (some t)
        | .error e => .error e
      | none => .ok (some (addDays today 1))
    else if containsSub txt "next week" then .ok (some (addDays today 7))
    else
      match oracle txt with
      | some parsed =>
        if dtLt parsed today then .ok (replaceYear parsed (today.year + 1))
        else .ok (some parsed)
      | none => .ok none

example : extract_meeting_datetime (fun _ => none) "tomorrow 3pm"
    ⟨2025, 11, 10, 9, 0, 0, 0⟩ = .ok (some ⟨2025, 11, 11, 15, 0, 0, 0⟩) := by rfl

example : extract_meeting_datetime (fun _ => none) "The 2 of us tomorrow 3pm"
    ⟨2025, 11, 10, 9, 0, 0, 0⟩ = .ok (some ⟨2025, 11, 11, 2, 0, 0, 0⟩) := by rfl

example : extract_meeting_datetime (fun _ => none) "next week"
    ⟨2025, 11, 10, 9, 0, 0, 0⟩ = .ok (some ⟨2025, 11, 17, 9, 0, 0, 0⟩) := by rfl

example : extract_meeting_datetime (fun _ => some ⟨2020, 1, 5, 9, 0, 0, 0⟩)
    "we met on jan 5 2020" ⟨2025, 11, 10, 9, 0, 0, 0⟩
    = .ok (some ⟨2026, 1, 5, 9, 0, 0, 0⟩) := by rfl

/-! ## scheduler_agent date regex sweep (IntentClassifier fallback)

The regex (scheduler_agent.py lines 166-168, re.IGNORECASE)
  (?:\b(?:mon|tue|wed|thu|fri|sat|sun)\b
    |\b(?:jan|feb|mar|apr|may|jun|jul|aug|sep|oct|nov|dec)[a-z]*\b)
  .\x7b0,20\x7d?\b\d\x7b1,2\x7d\b.*?(?:am|pm)?
Its trailing lazy part .*?(?:am|pm)? always matches the empty string, so a
match is a weekday/month token, a lazy gap of at most 20 non-newline chars,
and a word-bounded 1-2 digit number. Backtracking inside [a-z]* can never
produce a word boundary between two letters, so only the maximal letter run
can satisfy the following \b. -/

def weekdayTokens : List String := ["mon", "tue", "wed", "thu", "fri", "sat", "sun"]

def monthTokens : List String :=
  ["jan", "feb", "mar", "apr", "may", "jun", "jul", "aug", "sep", "oct", "nov", "dec"]

/-- Regex word character (\w, ASCII). -/
def isWordChar (c : Char) : Bool := c.isAlpha || c.isDigit || c = '_'

/-- The first min(n, length) chars, lowercased, as a string (IGNORECASE compare). -/
def lowerTake (n : Nat) (cs : List Char) : String :=
  String.mk ((cs.take n).map Char.toLower)

/-- Zero-width \b when the previous char is known to be a word char. -/
def boundaryAfterOk : List Char → Bool
  | [] => true
  | c :: _ => !isWordChar c

/-- \b\d\x7b1,2\x7d\b at the current position (prev = preceding char):
returns how many chars the number consumed. Greedy two digits first,
falling back to one only when the boundary allows it. -/
def numMatch (prev : Char) (cs : List Char) : Option Nat :=
  if isWordChar prev then none
  else
    match cs with
    | d1 :: rest =>
      if d1.isDigit then
        match rest with
        | d2 :: rest2 =>
          if d2.isDigit then (if boundaryAfterOk rest2 then some 2 else none)
          else if !isWordChar d2 then some 1 else none
        | [] => some 1
      else none
    | [] => none

/-- Lazy gap .\x7b0,20\x7d? followed by the bounded number: returns total chars
consumed (gap plus digits), trying the shortest gap first; `.` does not
match a newline. -/
def gapSearch (prev : Char) (cs : List Char) (fuel : Nat) : Option Nat :=
  match numMatch prev cs with
  | some n => some n
  | none =>
    match fuel, cs with
    | Nat.succ f, c :: rest =>
      if c = '\n' then none else (gapSearch c rest f).map (fun n => n + 1)
    | _, _ => none

/-- Given a token of tokenLen chars matched at the head of cs, try the gap
and number; on success return the whole matched span (group 0). -/
def tokenAttempt (cs : List Char) (tokenLen : Nat) : Option (List Char) :=
  let last := (cs.take tokenLen).getLastD ' '
  match gapSearch last (cs.drop tokenLen) 20 with
  | some consumed => some (cs.take (tokenLen + consumed))
  | none => none

/-- Weekday alternative: a standalone 3-letter token (\b on both sides). -/
def tryWeekday (cs : List Char) : Option (List Char) :=
  if weekdayTokens.contains (lowerTake 3 cs) && boundaryAfterOk (cs.drop 3) then
    tokenAttempt cs 3
  else none

/-- Month alternative: 3-letter month then [a-z]* then \b; only the maximal
letter run can satisfy the boundary. -/
def tryMonth (cs : List Char) : Option (List Char) :=
  if monthTokens.contains (lowerTake 3 cs) then
    let run := (cs.drop 3).takeWhile (fun c => c.isAlpha)
    let tokenLen := 3 + run.length
    if boundaryAfterOk (cs.drop tokenLen) then tokenAttempt cs tokenLen else none
  else none

/-- Leftmost search: at each position with \b before it, try the weekday
alternative, then the month alternative. -/
def sweepAux (prev : Option Char) : List Char → Option (List Char)
  | [] => none
  | c :: rest =>
    let bdry := match prev with | none => true | some p => !isWordChar p
    let here :=
      if bdry then
        match tryWeekday (c :: rest) with
        | some span => some span
        | none => tryMonth (c :: rest)
      else none
    match here with
    | some span => some span
    | none => sweepAux (some c) rest

/-- The date regex sweep on the raw reply, returning group 0 of the match. -/
def dateSweep (s : String) : Option String :=
  (sweepAux none s.toList).map (fun l => String.mk l)

example : dateSweep "Nov 18" = some "Nov 18" := by rfl
example : dateSweep "I am free next Tuesday, November 18, 2025 at 10 AM"
    = some "November 18" := by rfl
example : dateSweep "tomorrow 3pm" = none := by rfl
example : dateSweep "yes, happy to chat sometime" = none := by rfl
example : dateSweep "Nov18" = none := by rfl
example : dateSweep "Monday 18" = none := by rfl
example : dateSweep "Mon 18" = some "Mon 18" := by rfl

/-! ## scheduler_agent_node intent step (IntentClassifier)

The LLM classifier is an oracle: some d when json.loads succeeds on its
output, none when parsing raises (the source then defaults to
neutral/None). -/

structure IntentData where
  sentiment : String
  availability : Option String
deriving DecidableEq

/-- Python truthiness of intent_data.get("availability") for an optional string. -/
def optFalsy : Option String → Bool
  | none => true
  | some s => s = ""

/-- Lines 158-171 of scheduler_agent.py: parse-or-default, then the regex
sweep override that forces positive sentiment when a date mention exists. -/
def computeIntent (classifierOut : Option IntentData) (reply_text : String) : IntentData :=
  let d := classifierOut.getD ⟨"neutral", none⟩
  if optFalsy d.availability then
    match dateSweep reply_text with
    | some span => ⟨"positive", some span⟩
    | none => d
  else d

example : computeIntent none "Nov 18" = ⟨"positive", some "Nov 18"⟩ := by rfl
example : computeIntent (some ⟨"negative", none⟩) "Nov 18"
    = ⟨"positive", some "Nov 18"⟩ := by rfl

/-! ## interaction_agent.read_latest_reply (ReplyWatcher poll step)

The IMAP fetch (login, search, fetch, multipart decode) is the mailbox
collaborator: its outcome is the `fetched` argument, none covering both "no
matching message" and any raised IMAP error (the source catches them and
returns None). The post-fetch processing of the body is embedded: quoted
tail cut, strip, newline collapse, noise filter, 250-char snippet. -/

/-- Chars of "wrote:". -/
def wroteChars : List Char := ['w', 'r', 'o', 't', 'e', ':']

/-- Chars of "On ". -/
def onChars : List Char := ['O', 'n', ' ']

/-- re.sub(r"(On .+?wrote:).*", "", body, flags=re.DOTALL): truncate at the
first "On " that is followed (at distance at least one char) by "wrote:". -/
def cutQuoted : List Char → List Char
  | [] => []
  | c :: rest =>
    if (c :: rest).take 3 = onChars && occursIn wroteChars (rest.drop 3) then []
    else c :: cutQuoted rest

/-- ignore_patterns of read_latest_reply. -/
def ignorePatterns : List String :=
  ["Google Drive", "requests access", "out of office", "autoreply"]

/-- body after the quote cut, strip, and newline collapse (line 103-104). -/
def cleanBody (raw : String) : String :=
  String.mk ((trimChars (cutQuoted raw.toList)).map (fun c => if c = '\n' then ' ' else c))

/-- Does the cleaned body trip the automated-message noise filter? -/
def isNoise (raw : String) : Bool :=
  ignorePatterns.any (fun p => containsSub (strLower (cleanBody raw)) (strLower p))

/-- read_latest_reply (interaction_agent.py lines 74-126) given the fetched
raw body (none = no matching message or IMAP error). -/
def read_latest_reply (fetched : Option String) : Option String :=
  match fetched with
  | none => none
  | some raw =>
    if ignorePatterns.any (fun p => containsSub (strLower (cleanBody raw)) (strLower p))
    then none
    else
      let snippet := strTrim (String.mk ((cleanBody raw).toList.take 250))
      if snippet = "" then none else some snippet

example : read_latest_reply (some "none") = some "none" := by rfl
example : read_latest_reply (some "   \n  ") = none := by rfl
example : read_latest_reply (some "I am out of office until next Monday.") = none := by rfl
example : read_latest_reply (some "Sounds great!\nOn Mon, X wrote:\n> hi") = some "Sounds great!" := by rfl

/-! ## interaction_agent.wait_for_reply (ReplyWatcher loop)

The mailbox is indexed by poll number. The loop runs while
total_wait < timeout_minutes * 60, sleeping interval_sec between polls; the
positivity of the interval is required for termination exactly as in the
source (interval_sec = 0 would busy-loop forever there). The second
component counts polls performed (calls to read_latest_reply). -/

structure ReplyRecord where
  email : String
  reply : Option String
  status : String
deriving DecidableEq

/-- The sentinel strings of wait_for_reply line 142. -/
def sentinel3 (s : String) : Bool :=
  ["none", "null", "no reply"].contains (strLower (strTrim s))

/-- The polling loop body of wait_for_reply, from a given elapsed total_wait
and poll index k. -/
def waitAux (mailbox : Nat → Option String) (from_email : String)
    (limit interval : Nat) (hi : 0 < interval) (totalWait k : Nat) : ReplyRecord × Nat :=
  if _h : totalWait < limit then
    match read_latest_reply (mailbox k) with
    | some r =>
      if r = "" then
        let out := waitAux mailbox from_email limit interval hi (totalWait + interval) (k + 1)
        (out.1, out.2 + 1)
      else (⟨from_email, if sentinel3 r then none else some r, "replied"⟩, 1)
    | none =>
      let out := waitAux mailbox from_email limit interval hi (totalWait + interval) (k + 1)
      (out.1, out.2 + 1)
  else (⟨from_email, none, "no_reply"⟩, 0)
termination_by limit - totalWait
decreasing_by
  all_goals omega

/-- wait_for_reply (interaction_agent.py lines 134-148). -/
def wait_for_reply (mailbox : Nat → Option String) (from_email : String)
    (timeout_minutes interval_sec : Nat) (hi : 0 < interval_sec) : ReplyRecord × Nat :=
  waitAux mailbox from_email (timeout_minutes * 60) interval_sec hi 0 0

/-! ## scheduler_agent.create_calendar_event and scheduler_agent_node

The Google Calendar insert is a collaborator: Except.ok eventId on success,
Except.error e when anything in the try block raises. -/

def pad (w : Nat) (n : Nat) : String :=
  let s := toString n
  String.mk (List.replicate (w - s.length) '0') ++ s

/-- Python str(datetime). -/
def dtString (t : DateTime) : String :=
  pad 4 t.year ++ "-" ++ pad 2 t.month ++ "-" ++ pad 2 t.day ++ " " ++
    pad 2 t.hour ++ ":" ++ pad 2 t.minute ++ ":" ++ pad 2 t.second ++
    (if t.usec = 0 then "" else "." ++ pad 6 t.usec)

/-- Success dict has email, event_id, meeting_time; the except branch
(lines 138-140) yields a dict with only email and error. -/
structure MeetingInfo where
  email : String
  event_id : Option String
  meeting_time : Option String
  error : Option String
deriving DecidableEq

/-- create_calendar_event (scheduler_agent.py lines 110-140): never raises;
collaborator failure becomes a record carrying the error. -/
def create_calendar_event (apiResult : Except String String)
    (to_email : String) (meeting_time : DateTime) : MeetingInfo :=
  match apiResult with
  | .ok eventId => ⟨to_email, some eventId, some (dtString meeting_time), none⟩
  | .error e => ⟨to_email, none, none, some e⟩

structure FollowUp where
  email : String
  status : String
deriving DecidableEq

/-- Line 182-185: extract from availability if truthy, else from the raw reply. -/
def chosenText : Option String → String → String
  | some a, reply => if a = "" then reply else a
  | none, reply => reply

/-- The per-response body of scheduler_agent_node's loop (lines 150-203).
classify = the LLM intent collaborator plus json.loads (none = unparseable);
api = the calendar collaborator, per attendee and time; oracle/today feed
extract_meeting_datetime. A negative sentiment only logs, and a neutral one
does nothing, so both leave the state unchanged. The Except layer carries
the ValueError that extract_meeting_datetime can raise. -/
def processResponse (classify : String → Option IntentData)
    (api : String → DateTime → Except String String)
    (oracle : String → Option DateTime) (today : DateTime)
    (r : ReplyRecord) (acc : List MeetingInfo × List FollowUp) :
    Except String (List MeetingInfo × List FollowUp) :=
  match r.reply with
  | none => .ok acc
  | some reply =>
    if reply = "" then .ok acc
    else
      let intent := computeIntent (classify reply) reply
      if intent.sentiment = "positive" then
        match extract_meeting_datetime oracle (chosenText intent.availability reply) today with
        | .error e => .error e
        | .ok (some t) =>
          .ok (acc.1 ++ [create_calendar_event (api r.email t) r.email t], acc.2)
        | .ok none => .ok (acc.1, acc.2 ++ [⟨r.email, "follow-up sent"⟩])
      else .ok acc

/-- The loop of scheduler_agent_node over all responses. -/
def schedLoop (classify : String → Option IntentData)
    (api : String → DateTime → Except String String)
    (oracle : String → Option DateTime) (today : DateTime) :
    List ReplyRecord → List MeetingInfo × List FollowUp →
    Except String (List MeetingInfo × List FollowUp)
  | [], acc => .ok acc
  | r :: rest, acc =>
    match processResponse classify api oracle today r acc with
    | .error e => .error e
    | .ok acc2 => schedLoop classify api oracle today rest acc2

/-- scheduler_agent_node (scheduler_agent.py lines 145-209): returns the
responses unchanged together with the accumulated meeting and follow-up
lists. -/
def scheduler_agent_node (classify : String → Option IntentData)
    (api : String → DateTime → Except String String)
    (oracle : String → Option DateTime) (today : DateTime)
    (responses : List ReplyRecord) (ms0 : List MeetingInfo) (fs0 : List FollowUp) :
    Except String (List ReplyRecord × List MeetingInfo × List FollowUp) :=
  match schedLoop classify api oracle today responses (ms0, fs0) with
  | .error e => .error e
  | .ok acc => .ok (responses, acc.1, acc.2)

/-! ## supervisor_agent: reply normalization, validity filter, short-circuit -/

/-- The sentinel test of the supervisor normalization (lines 104-107). -/
def sentinelSup (v : String) : Bool :=
  ["none", "null", ""].contains (strLower (strTrim v))

/-- The response normalization loop: clears sentinel reply strings into an
actual absent value, touching nothing else. -/
def normalizeReply (r : ReplyRecord) : ReplyRecord :=
  match r.reply with
  | some v => if sentinelSup v then ⟨r.email, none, r.status⟩ else r
  | none => r

/-- The automated-message blocklist of has_valid_reply (line 50). -/
def blocklist : List String :=
  ["drive.google.com", "no-reply", "automated message", "requests access"]

/-- has_valid_reply (supervisor_agent.py lines 45-54). -/
def has_valid_reply (r : ReplyRecord) : Bool :=
  match r.reply with
  | none => false
  | some val =>
    if val = "" then false
    else
      let txt := strLower (strTrim val)
      if blocklist.any (fun bad => containsSub txt bad) then false
      else if ["none", "null", "", "no reply"].contains txt then false
      else true

/-- Step 3 of supervisor_agent_node (lines 117-132): the scheduler stage
(abstracted as sched, whose input it fully determines) is invoked only on
the validity-filtered responses, and skipped outright when none are valid. -/
def supervisorScheduling (sched : List ReplyRecord → List MeetingInfo)
    (responses : List ReplyRecord) : List MeetingInfo :=
  let valid := responses.filter (fun r => has_valid_reply r)
  if valid.isEmpty then [] else sched valid

example : has_valid_reply ⟨"a@b", some "No Reply", "replied"⟩ = false := by rfl
example : has_valid_reply ⟨"a@b", some "This is an automated message.", "replied"⟩ = false := by rfl
example : has_valid_reply ⟨"a@b", some "Sure, Nov 18 works", "replied"⟩ = true := by rfl

/-! ## interaction_agent process_lead (OutreachCoordinator)

The LLM compose call is Except (error = raised exception, caught at line
172-174 where the lead is abandoned); json.loads is the parse oracle; the
SMTP session outcome is an Option String (some err = the exception caught
inside send_email_smtp); the reply watcher result for this lead's address is
the already-modeled wait_for_reply output record. -/

/-- Outcome of json.loads on the cleaned compose response, as consumed by
lines 179-189: the oracle returns none when json.loads raises
JSONDecodeError (the only exception the source catches there, triggering
the fallback dict), and some d when it returns a value, whose "subject" and
"body" entries are d's optional fields. A successful parse to a non-dict
value (array, string, number) behaves as one with neither field: the
subscripts of line 189 raise TypeError instead of KeyError, uncaught either
way. -/
structure EmailJson where
  subject : Option String
  body : Option String
deriving DecidableEq

structure SendInfo where
  email : String
  status : String
  subject : Option String
  error : Option String
deriving DecidableEq

/-- send_email_smtp (interaction_agent.py lines 52-67): success dict carries
the subject, failure dict carries the error instead. -/
def send_email_smtp (smtpOutcome : Option String) (to_email subject body : String) : SendInfo :=
  match smtpOutcome with
  | none => ⟨to_email, "sent", some subject, none⟩
  | some err => ⟨to_email, "failed", none, some err⟩

structure Lead where
  company_name : String
  industry : String
  company_description : String
  contact_email : String
deriving DecidableEq

def defaultSubject (company_name : String) : String :=
  "Exploring Collaboration with " ++ company_name

def backtickChar : Char := Char.ofNat 96

/-- One re.sub pass of r"^BBB(json)?|BBB$" (B the backtick) with re.MULTILINE:
at line starts strip a fence with optional json tag; elsewhere strip a fence
standing at a line end. -/
def fenceAux : Bool → List Char → List Char
  | _, [] => []
  | atStart, c :: cs =>
    if atStart && c = backtickChar && cs.take 2 = [backtickChar, backtickChar] then
      if (cs.drop 2).take 4 = ['j', 's', 'o', 'n'] then fenceAux false (cs.drop 6)
      else fenceAux false (cs.drop 2)
    else if c = backtickChar && cs.take 2 = [backtickChar, backtickChar] &&
        ((cs.drop 2).isEmpty || (cs.drop 2).head? = some '\n') then
      fenceAux false (cs.drop 2)
    else c :: fenceAux (c = '\n') cs
termination_by _ l => l.length
decreasing_by
  all_goals simp [List.length_drop]
  all_goals omega

/-- cleaned (line 177): strip, remove code fences, strip again. -/
def cleanContent (content : String) : String :=
  strTrim (String.mk (fenceAux true (strTrim content).toList))

/-- process_lead (interaction_agent.py lines 157-194) for one lead: the
emails_sent entries this lead contributes and the response record it
produces. A raised compose call (caught) short-circuits with a failed
response and no send; a JSONDecodeError from json.loads falls back to the
deterministic default subject with the cleaned raw text as body; but a
parse that succeeds without both a "subject" and a "body" entry hits the
uncaught KeyError/TypeError of line 189, which escapes the task
(Except.error) before anything is sent or watched. Otherwise the send
outcome, sent or failed, is recorded and the lead proceeds to
reply-watching either way. -/
def process_lead (parseJson : String → Option EmailJson) (smtpOutcome : Option String)
    (watcher : ReplyRecord) (lead : Lead) (llmOut : Except String String) :
    Except String (List SendInfo × ReplyRecord) :=
  match llmOut with
  | .error _ => .ok ([], ⟨lead.contact_email, none, "failed"⟩)
  | .ok content =>
    let cleaned := cleanContent content
    let email_data :=
      match parseJson cleaned with
      | some d => d
      | none => ⟨some (defaultSubject lead.company_name), some cleaned⟩
    match email_data.subject, email_data.body with
    | some subject, some body =>
      .ok ([send_email_smtp smtpOutcome lead.contact_email subject body], watcher)
    | _, _ => .error "KeyError"

/-- A lead's independent inputs: the lead itself and its collaborator
outcomes (compose, SMTP, watcher). -/
structure LeadRun where
  lead : Lead
  llmOut : Except String String
  smtpOutcome : Option String
  watcher : ReplyRecord

/-- interaction_agent_node (lines 153-207): every lead's task runs
process_lead on its own inputs; asyncio.gather (with its default
return_exceptions=False) collects all results, but an exception raised by
any task propagates out of the await, so one crashing lead aborts the
whole aggregation. -/
def interaction_agent_node (parseJson : String → Option EmailJson) :
    List LeadRun → Except String (List (List SendInfo × ReplyRecord))
  | [] => .ok []
  | run :: rest =>
    match process_lead parseJson run.smtpOutcome run.watcher run.lead run.llmOut with
    | .error e => .error e
    | .ok out =>
      match interaction_agent_node parseJson rest with
      | .error e => .error e
      | .ok outs => .ok (out :: outs)

/-! ## Helper lemmas about the reply watcher -/

theorem waitAux_stop (mailbox : Nat → Option String) (e : String) (limit interval : Nat)
    (hi : 0 < interval) (totalWait k : Nat) (h : ¬ totalWait < limit) :
    waitAux mailbox e limit interval hi totalWait k = (⟨e, none, "no_reply"⟩, 0) := by
  rw [waitAux]
  simp [h]

theorem waitAux_poll_some (mailbox : Nat → Option String) (e : String) (limit interval : Nat)
    (hi : 0 < interval) (totalWait k : Nat) (h : totalWait < limit) (r : String)
    (hr : read_latest_reply (mailbox k) = some r) (hne : r ≠ "") :
    waitAux mailbox e limit interval hi totalWait k
      = (⟨e, if sentinel3 r then none else some r, "replied"⟩, 1) := by
  rw [waitAux]
  simp [h, hr, hne]

theorem waitAux_poll_none (mailbox : Nat → Option String) (e : String) (limit interval : Nat)
    (hi : 0 < interval) (totalWait k : Nat) (h : totalWait < limit)
    (hr : read_latest_reply (mailbox k) = none) :
    waitAux mailbox e limit interval hi totalWait k
      = ((waitAux mailbox e limit interval hi (totalWait + interval) (k + 1)).1,
         (waitAux mailbox e limit interval hi (totalWait + interval) (k + 1)).2 + 1) := by
  rw [waitAux]
  simp [h, hr]

theorem waitAux_poll_empty (mailbox : Nat → Option String) (e : String) (limit interval : Nat)
    (hi : 0 < interval) (totalWait k : Nat) (h : totalWait < limit)
    (hr : read_latest_reply (mailbox k) = some "") :
    waitAux mailbox e limit interval hi totalWait k
      = ((waitAux mailbox e limit interval hi (totalWait + interval) (k + 1)).1,
         (waitAux mailbox e limit interval hi (totalWait + interval) (k + 1)).2 + 1) := by
  rw [waitAux]
  simp [h, hr]

/-- read_latest_reply never yields an empty snippet: a body empty after
trimming is treated like no message at all. -/
theorem read_latest_reply_ne_empty (fetched : Option String) (s : String)
    (h : read_latest_reply fetched = some s) : s ≠ "" := by
  match fetched with
  | none => simp [read_latest_reply] at h
  | some raw =>
    simp only [read_latest_reply] at h
    split at h
    · exact absurd h (by simp)
    · split at h
      · exact absurd h (by simp)
      · rename_i hne
        cases h
        exact hne

/-- A noise-filtered message is treated exactly like no message. -/
theorem read_latest_reply_noise (raw : String) (h : isNoise raw = true) :
    read_latest_reply (some raw) = none := by
  simp only [isNoise] at h
  simp only [read_latest_reply, h]
  simp

/-- If every poll sees no usable message, the watcher exhausts the full
timeout: it returns the no_reply record and its total elapsed wait
(polls times interval) reaches the limit. -/
theorem waitAux_noReply_of_none (mailbox : Nat → Option String) (e : String)
    (limit interval : Nat) (hi : 0 < interval)
    (hm : ∀ j, read_latest_reply (mailbox j) = none) (totalWait k : Nat) :
    (waitAux mailbox e limit interval hi totalWait k).1 = ⟨e, none, "no_reply"⟩ ∧
      limit ≤ totalWait + (waitAux mailbox e limit interval hi totalWait k).2 * interval := by
  by_cases h : totalWait < limit
  · have hrec := waitAux_noReply_of_none mailbox e limit interval hi hm (totalWait + interval) (k + 1)
    rw [waitAux_poll_none mailbox e limit interval hi totalWait k h (hm k)]
    refine ⟨hrec.1, ?_⟩
    have h2 := hrec.2
    simp only [Nat.succ_mul]
    omega
  · rw [waitAux_stop mailbox e limit interval hi totalWait k h]
    exact ⟨rfl, by omega⟩
termination_by limit - totalWait
decreasing_by
  omega

/-- For any mailbox whatsoever, the number of polls the watcher performs is
bounded: elapsed wait stays below limit + interval. -/
theorem waitAux_polls (mailbox : Nat → Option String) (e : String)
    (limit interval : Nat) (hi : 0 < interval) (totalWait k : Nat)
    (hlt : totalWait < limit + interval) :
    totalWait + (waitAux mailbox e limit interval hi totalWait k).2 * interval
      < limit + interval := by
  by_cases h : totalWait < limit
  · cases hr : read_latest_reply (mailbox k) with
    | none =>
      rw [waitAux_poll_none mailbox e limit interval hi totalWait k h hr]
      have hrec := waitAux_polls mailbox e limit interval hi (totalWait + interval) (k + 1)
        (by omega)
      simp only [Nat.succ_mul]
      omega
    | some r =>
      by_cases hre : r = ""
      · subst hre
        rw [waitAux_poll_empty mailbox e limit interval hi totalWait k h hr]
        have hrec := waitAux_polls mailbox e limit interval hi (totalWait + interval) (k + 1)
          (by omega)
        simp only [Nat.succ_mul]
        omega
      · rw [waitAux_poll_some mailbox e limit interval hi totalWait k h r hr hre]
        simp only [Nat.one_mul]
        omega
  · rw [waitAux_stop mailbox e limit interval hi totalWait k h]
    simpa using hlt
termination_by limit - totalWait
decreasing_by
  all_goals omega

/-- Every watcher outcome is either the timeout no_reply record, or a
replied record built from some poll's accepted snippet, with the sentinel
normalization applied. -/
theorem waitAux_cases (mailbox : Nat → Option String) (e : String)
    (limit interval : Nat) (hi : 0 < interval) (totalWait k : Nat) :
    (waitAux mailbox e limit interval hi totalWait k).1 = ⟨e, none, "no_reply"⟩ ∨
      ∃ j r, read_latest_reply (mailbox j) = some r ∧ r ≠ "" ∧
        (waitAux mailbox e limit interval hi totalWait k).1
          = ⟨e, if sentinel3 r then none else some r, "replied"⟩ := by
  by_cases h : totalWait < limit
  · cases hr : read_latest_reply (mailbox k) with
    | none =>
      rw [waitAux_poll_none mailbox e limit interval hi totalWait k h hr]
      exact waitAux_cases mailbox e limit interval hi (totalWait + interval) (k + 1)
    | some r =>
      by_cases hre : r = ""
      · subst hre
        rw [waitAux_poll_empty mailbox e limit interval hi totalWait k h hr]
        exact waitAux_cases mailbox e limit interval hi (totalWait + interval) (k + 1)
      · rw [waitAux_poll_some mailbox e limit interval hi totalWait k h r hr hre]
        exact Or.inr ⟨k, r, hr, hre, rfl⟩
  · rw [waitAux_stop mailbox e limit interval hi totalWait k h]
    exact Or.inl rfl
termination_by limit - totalWait
decreasing_by
  all_goals omega

/-! ## Claim C1 -/

/-- C1 counterexample: with a mailbox whose message body is the literal
string "none", wait_for_reply (default timeout 3 min, interval 10 s)
returns a record with status "replied" whose reply field is absent — the
claimed invariant that a Replied record always carries non-empty raw_text
fails on the code, which normalizes sentinel bodies to None but keeps the
replied status. -/
theorem C1_replied_absent_cex :
    (wait_for_reply (fun _ => some "none") "lead@example.com" 3 10 (Nat.succ_pos 9)).1
      = ⟨"lead@example.com", none, "replied"⟩ := by
  have h1 : read_latest_reply (some "none") = some "none" := by rfl
  have h2 := waitAux_poll_some (fun _ => some "none") "lead@example.com" (3 * 60) 10
    (Nat.succ_pos 9) 0 0 (by omega) "none" h1 (by decide)
  rw [wait_for_reply, h2]
  rfl

/-- C1 (amended): a record returned by wait_for_reply with a present reply
always has status "replied" and non-empty text; a "replied" record with an
absent reply can occur, but only when some poll's accepted snippet was one
of the sentinel strings none/null/no reply; and read_latest_reply never
produces an empty snippet (a body empty after trimming is treated as no
message, so polling continues). -/
theorem C1_replied_nonempty_amended (mailbox : Nat → Option String) (e : String)
    (tm iv : Nat) (hi : 0 < iv) :
    (∀ s, (wait_for_reply mailbox e tm iv hi).1.reply = some s →
      (wait_for_reply mailbox e tm iv hi).1.status = "replied" ∧ s ≠ "") ∧
    ((wait_for_reply mailbox e tm iv hi).1.status = "replied" ∧
        (wait_for_reply mailbox e tm iv hi).1.reply = none →
      ∃ j r, read_latest_reply (mailbox j) = some r ∧ sentinel3 r = true) ∧
    (∀ raw s, read_latest_reply (some raw) = some s → s ≠ "") := by
  have hc := waitAux_cases mailbox e (tm * 60) iv hi 0 0
  rw [wait_for_reply]
  refine ⟨?_, ?_, fun raw s h => read_latest_reply_ne_empty (some raw) s h⟩
  · intro s hs
    rcases hc with hno | ⟨j, r, hj, hne, hrep⟩
    · rw [hno] at hs
      simp at hs
    · rw [hrep] at hs ⊢
      refine ⟨rfl, ?_⟩
      by_cases hsent : sentinel3 r
      · simp [hsent] at hs
      · simp [hsent] at hs
        exact hs ▸ hne
  · rintro ⟨hst, habs⟩
    rcases hc with hno | ⟨j, r, hj, hne, hrep⟩
    · rw [hno] at hst
      simp at hst
    · refine ⟨j, r, hj, ?_⟩
      rw [hrep] at habs
      by_cases hsent : sentinel3 r
      · exact hsent
      · simp [hsent] at habs

/-- C1 amended-claim witness at a concrete human reply. -/
theorem C1_replied_nonempty_amended_witness :
    (wait_for_reply (fun _ => some "Sounds great, please call me.") "a@b.com" 3 10
        (Nat.succ_pos 9)).1.status = "replied" ∧
      "Sounds great, please call me." ≠ "" := by
  have h1 : read_latest_reply (some "Sounds great, please call me.")
      = some "Sounds great, please call me." := by rfl
  have h2 := waitAux_poll_some (fun _ => some "Sounds great, please call me.") "a@b.com"
    (3 * 60) 10 (Nat.succ_pos 9) 0 0 (by omega) "Sounds great, please call me." h1 (by decide)
  exact (C1_replied_nonempty_amended (fun _ => some "Sounds great, please call me.")
    "a@b.com" 3 10 (Nat.succ_pos 9)).1 "Sounds great, please call me."
    (by rw [wait_for_reply, h2]; decide)

/-! ## Claim C4 -/

/-- C4: if every poll of the mailbox yields only messages tripping the
automated-message noise filter, the watcher exhausts the full timeout (its
elapsed wait, polls times interval, reaches timeout_minutes * 60) and then
returns status no_reply with an absent reply; and a noise-rejected message
is treated exactly like no message, so polling continues. -/
theorem C4_noise_full_timeout (mailbox : Nat → Option String) (e : String)
    (tm iv : Nat) (hi : 0 < iv)
    (hn : ∀ k, ∃ raw, mailbox k = some raw ∧ isNoise raw = true) :
    (wait_for_reply mailbox e tm iv hi).1 = ⟨e, none, "no_reply"⟩ ∧
      tm * 60 ≤ (wait_for_reply mailbox e tm iv hi).2 * iv ∧
      (∀ raw, isNoise raw = true → read_latest_reply (some raw) = none) := by
  have hm : ∀ j, read_latest_reply (mailbox j) = none := by
    intro j
    obtain ⟨raw, hraw, hno⟩ := hn j
    rw [hraw]
    exact read_latest_reply_noise raw hno
  have h := waitAux_noReply_of_none mailbox e (tm * 60) iv hi hm 0 0
  rw [wait_for_reply]
  exact ⟨h.1, by simpa using h.2, fun raw hno => read_latest_reply_noise raw hno⟩

/-- C4 witness: a mailbox that always answers with an out-of-office
message, timeout 1 minute, poll interval 30 seconds. -/
theorem C4_noise_full_timeout_witness :
    (wait_for_reply (fun _ => some "I am out of office until next Monday.") "lead@x.com"
        1 30 (Nat.succ_pos 29)).1 = ⟨"lead@x.com", none, "no_reply"⟩ ∧
      1 * 60 ≤ (wait_for_reply (fun _ => some "I am out of office until next Monday.")
        "lead@x.com" 1 30 (Nat.succ_pos 29)).2 * 30 := by
  have h := C4_noise_full_timeout (fun _ => some "I am out of office until next Monday.")
    "lead@x.com" 1 30 (Nat.succ_pos 29)
    (fun k => ⟨"I am out of office until next Monday.", rfl, by rfl⟩)
  exact ⟨h.1, h.2.1⟩

/-! ## Claim C10 -/

/-- C10: for every mailbox, contact address, timeout_minutes and positive
poll interval, the polling loop terminates (wait_for_reply is a total
function of its inputs, with termination measured by the remaining wait)
after at most ceil(timeout_minutes * 60 / interval_sec) polls. -/
theorem C10_poll_bound (mailbox : Nat → Option String) (e : String)
    (tm iv : Nat) (hi : 0 < iv) :
    (wait_for_reply mailbox e tm iv hi).2 ≤ (tm * 60 + iv - 1) / iv := by
  have h := waitAux_polls mailbox e (tm * 60) iv hi 0 0 (by omega)
  rw [wait_for_reply, Nat.le_div_iff_mul_le hi]
  omega

/-- C10 witness at the source defaults (3 minutes, 10 seconds): at most 18
polls. -/
theorem C10_poll_bound_witness :
    (wait_for_reply (fun _ => none) "a@b.com" 3 10 (Nat.succ_pos 9)).2
      ≤ (3 * 60 + 10 - 1) / 10 :=
  C10_poll_bound (fun _ => none) "a@b.com" 3 10 (Nat.succ_pos 9)

/-! ## Claim C2 -/

/-- A datetime whose year is strictly larger is strictly later. -/
theorem dtLt_of_year_lt (a b : DateTime) (h : a.year < b.year) : dtLt a b = true := by
  simp [dtLt, h]

/-- The fuzzy-parse oracle returning a date with an explicit year far in
the past (as dateutil does for a reply mentioning that year). -/
def pastYearOracle : String → Option DateTime := fun _ => some ⟨2020, 1, 5, 9, 0, 0, 0⟩

/-- C2 counterexample: for a reply whose fuzzy parse carries an explicit
past year (2020), the code returns the parse with its year REPLACED by
now.year + 1 (2026), not the parse advanced by exactly one year (2021) as
the claim states. -/
theorem C2_advance_one_year_cex :
    dtLt ⟨2020, 1, 5, 9, 0, 0, 0⟩ ⟨2025, 11, 10, 9, 0, 0, 0⟩ = true ∧
    extract_meeting_datetime pastYearOracle "we met on jan 5 2020" ⟨2025, 11, 10, 9, 0, 0, 0⟩
      = .ok (some ⟨2026, 1, 5, 9, 0, 0, 0⟩) ∧
    (⟨2026, 1, 5, 9, 0, 0, 0⟩ : DateTime) ≠ ⟨2021, 1, 5, 9, 0, 0, 0⟩ := by
  exact ⟨by rfl, by rfl, by decide⟩

/-- C2 (amended): in the fuzzy-parsing rule, when the parsed result is
strictly before now the returned timestamp is the parsed result with its
year component replaced by now.year + 1 (which coincides with advancing by
exactly one year precisely when the parsed year equals now's year, the
usual case for a parse defaulted to now) whenever that replacement is
representable; any timestamp so produced is strictly after now, and a
parse at or after now is returned unchanged, so every timestamp produced
through this rule is ≥ now. -/
theorem C2_past_parse_amended (oracle : String → Option DateTime) (reply : String)
    (today parsed : DateTime) (h0 : reply ≠ "")
    (h1 : containsSub (strTrim (strLower reply)) "tomorrow" = false)
    (h2 : containsSub (strTrim (strLower reply)) "next week" = false)
    (h3 : oracle (strTrim (strLower reply)) = some parsed) :
    (dtLt parsed today = true →
      extract_meeting_datetime oracle reply today
          = .ok (replaceYear parsed (today.year + 1)) ∧
        ∀ res, replaceYear parsed (today.year + 1) = some res →
          res.year = today.year + 1 ∧ dtLt today res = true) ∧
    (dtLt parsed today = false →
      extract_meeting_datetime oracle reply today = .ok (some parsed)) := by
  constructor
  · intro hpast
    constructor
    · simp only [extract_meeting_datetime, h0, h1, h2, h3, hpast]
      simp
    · intro res hres
      simp only [replaceYear] at hres
      split at hres
      · cases hres
        exact ⟨rfl, dtLt_of_year_lt today { parsed with year := today.year + 1 }
          (Nat.lt_succ_self _)⟩
      · exact absurd hres (by simp)
  · intro hfut
    simp only [extract_meeting_datetime, h0, h1, h2, h3, hfut]
    simp

/-- C2 amended-claim witness at the concrete past parse. -/
theorem C2_past_parse_amended_witness :
    extract_meeting_datetime pastYearOracle "we met on jan 5 2020" ⟨2025, 11, 10, 9, 0, 0, 0⟩
      = .ok (replaceYear ⟨2020, 1, 5, 9, 0, 0, 0⟩ (2025 + 1)) :=
  ((C2_past_parse_amended pastYearOracle "we met on jan 5 2020" ⟨2025, 11, 10, 9, 0, 0, 0⟩
    ⟨2020, 1, 5, 9, 0, 0, 0⟩ (by decide) (by rfl) (by rfl) (by rfl)).1 (by rfl)).1

/-! ## Claim C7 -/

/-- The replace-then-add-a-day step succeeds on an in-range clock time. -/
theorem replaceTimePlus1Day_ok (today : DateTime) (h m : Nat) (hh : h ≤ 23) (hm : m ≤ 59) :
    replaceTimePlus1Day today h m
      = .ok (addDays ⟨today.year, today.month, today.day, h, m, 0, 0⟩ 1) := by
  unfold replaceTimePlus1Day
  rw [if_pos (⟨hh, hm⟩ : h ≤ 23 ∧ m ≤ 59)]

/-- A text with no digit at all gives no time-regex match. -/
theorem findTimeAux_none_of_noDigit (cs : List Char)
    (h : ∀ c ∈ cs, c.isDigit = false) : findTimeAux cs = none := by
  induction cs with
  | nil => rfl
  | cons c rest ih =>
    have hc := h c (by simp)
    simp only [findTimeAux, hc]
    simp only [Bool.false_eq_true, if_false]
    exact ih (fun d hd => h d (by simp [hd]))

/-- C7 counterexample: "The 2 of us tomorrow 3pm" contains "tomorrow" and
an explicit hour with an am/pm marker ("3pm"), yet the resolver returns
now + 1 day at 02:00 — the hour regex grabs the first 1-2 digit number of
the text, not the hour carrying the marker — instead of 15:00 as the claim
requires. -/
theorem C7_tomorrow_clock_cex :
    containsSub (strTrim (strLower "The 2 of us tomorrow 3pm")) "tomorrow" = true ∧
    containsSub (strTrim (strLower "The 2 of us tomorrow 3pm")) "3pm" = true ∧
    extract_meeting_datetime (fun _ => none) "The 2 of us tomorrow 3pm"
      ⟨2025, 11, 10, 9, 0, 0, 0⟩ = .ok (some ⟨2025, 11, 11, 2, 0, 0, 0⟩) ∧
    (⟨2025, 11, 11, 2, 0, 0, 0⟩ : DateTime) ≠ ⟨2025, 11, 11, 15, 0, 0, 0⟩ := by
  exact ⟨by rfl, by rfl, by rfl, by decide⟩

/-- C7 (amended): for a text containing "tomorrow", when the FIRST 1-2
digit number of the text (the one the regex finds) carries the am/pm
marker, the resolver returns now + 1 day at that clock time — pm adding 12
to hours below 12, am leaving the hour unchanged — provided the resulting
hour/minute are in range (otherwise the uncaught ValueError of the source
propagates); a text with an earlier bare number uses that number as the
hour instead (see the counterexample). With no number at all it returns
now + 1 day with the time-of-day unchanged. In particular
resolve("tomorrow 3pm", 2025-11-10T09:00) = 2025-11-11T15:00. -/
theorem C7_tomorrow_amended (oracle : String → Option DateTime) (reply : String)
    (today : DateTime) (h m : Nat) (h0 : reply ≠ "")
    (h1 : containsSub (strTrim (strLower reply)) "tomorrow" = true) :
    (findTime (strTrim (strLower reply)) = some (h, m, some "pm") → h < 12 → m ≤ 59 →
      extract_meeting_datetime oracle reply today
        = .ok (some (addDays ⟨today.year, today.month, today.day, h + 12, m, 0, 0⟩ 1))) ∧
    (findTime (strTrim (strLower reply)) = some (h, m, some "am") → h ≤ 23 → m ≤ 59 →
      extract_meeting_datetime oracle reply today
        = .ok (some (addDays ⟨today.year, today.month, today.day, h, m, 0, 0⟩ 1))) ∧
    ((∀ c ∈ (strTrim (strLower reply)).toList, c.isDigit = false) →
      extract_meeting_datetime oracle reply today = .ok (some (addDays today 1))) ∧
    extract_meeting_datetime (fun _ => none) "tomorrow 3pm" ⟨2025, 11, 10, 9, 0, 0, 0⟩
      = .ok (some ⟨2025, 11, 11, 15, 0, 0, 0⟩) := by
  refine ⟨?_, ?_, ?_, by rfl⟩
  · intro hft hh hm
    simp only [extract_meeting_datetime, h0, h1, hft]
    simp [hh, replaceTimePlus1Day_ok today (h + 12) m (by omega) hm]
  · intro hft hh hm
    simp only [extract_meeting_datetime, h0, h1, hft]
    rw [if_neg (by simp : ¬((some "am" : Option String) = some "pm" ∧ h < 12)),
      replaceTimePlus1Day_ok today h m hh hm]
    simp
  · intro hnd
    have hft : findTime (strTrim (strLower reply)) = none :=
      findTimeAux_none_of_noDigit _ hnd
    simp only [extract_meeting_datetime, h0, h1, hft]
    simp

/-- C7 amended-claim witness: the claim's own concrete example. -/
theorem C7_tomorrow_amended_witness :
    extract_meeting_datetime (fun _ => none) "tomorrow 3pm" ⟨2025, 11, 10, 9, 0, 0, 0⟩
      = .ok (some ⟨2025, 11, 11, 15, 0, 0, 0⟩) :=
  (C7_tomorrow_amended (fun _ => none) "tomorrow 3pm" ⟨2025, 11, 10, 9, 0, 0, 0⟩ 3 0
    (by decide) (by rfl)).2.2.2

/-! ## Claim C3 -/

/-- C3: whenever the weekday/month-name regex sweep finds a date mention in
the reply, and the classifier's primary output is unparseable (none) or
reports no availability (a falsy availability field), the intent judgment
has sentiment forced to "positive" and availability set to the matched
span — overriding any classifier-assigned neutral or negative sentiment. -/
theorem C3_sweep_override (classifierOut : Option IntentData) (reply span : String)
    (h1 : dateSweep reply = some span)
    (h2 : classifierOut = none ∨
      ∃ d, classifierOut = some d ∧ optFalsy d.availability = true) :
    computeIntent classifierOut reply = ⟨"positive", some span⟩ := by
  rcases h2 with h2 | ⟨d, hd, hf⟩
  · subst h2
    simp only [computeIntent, Option.getD, h1]
    rfl
  · subst hd
    simp only [computeIntent, Option.getD, hf, if_pos, h1]

/-- C3 witness: text containing "Nov 18" with an unparseable classifier
response, and the same text with a classifier-assigned negative sentiment
and no availability. -/
theorem C3_sweep_override_witness :
    computeIntent none "Nov 18" = ⟨"positive", some "Nov 18"⟩ ∧
      computeIntent (some ⟨"negative", none⟩) "Nov 18" = ⟨"positive", some "Nov 18"⟩ :=
  ⟨C3_sweep_override none "Nov 18" "Nov 18" (by rfl) (Or.inl rfl),
   C3_sweep_override (some ⟨"negative", none⟩) "Nov 18" "Nov 18" (by rfl)
     (Or.inr ⟨⟨"negative", none⟩, rfl, rfl⟩)⟩

/-! ## Claim C5 -/

/-- C5 counterexample: two ways the code creates no emails_sent entry for a
lead. When the compose collaborator raises (caught at lines 172-174),
process_lead yields a failed response directly, with no entry and no
reply-watching. And when the compose response "[1, 2]" parses under
json.loads to a value without "subject"/"body" entries, the uncaught
subscript error of line 189 crashes the task: no entry, no reply-watching,
and the exception escapes toward the gather. Either way the claimed
"exactly one OutreachResult per lead" fails. -/
theorem C5_one_outreach_cex :
    process_lead (fun _ => none) none ⟨"ceo@cloudx.com", some "hi", "replied"⟩
        ⟨"CloudXpert Inc.", "SaaS", "desc", "ceo@cloudx.com"⟩ (.error "APIError")
      = .ok ([], ⟨"ceo@cloudx.com", none, "failed"⟩) ∧
    process_lead (fun _ => some ⟨none, none⟩) none ⟨"ceo@cloudx.com", some "hi", "replied"⟩
        ⟨"CloudXpert Inc.", "SaaS", "desc", "ceo@cloudx.com"⟩ (.ok "[1, 2]")
      = .error "KeyError" ∧
    ([] : List SendInfo).length ≠ 1 := by
  exact ⟨rfl, rfl, by decide⟩

/-- C5 (amended): for a lead whose compose call returns text, exactly one
emails_sent entry is created and the lead proceeds to reply-watching in
exactly two cases — json.loads raises JSONDecodeError, and the fallback
supplies the deterministic default subject with the cleaned raw text as
body; or the parse yields both a subject and a body, which are sent as-is.
A send failure is then recorded as a failed entry carrying the error while
the lead still proceeds to reply-watching. A raised compose call creates no
entry and yields a failed response without reply-watching, affecting no
other lead. But a compose response that parses without both fields raises
out of the lead's task (no entry, no watcher), and one such lead aborts the
whole gather, so it does affect the other leads. When the coordinator does
return, each lead's output entry is exactly the result of process_lead on
that lead's own inputs. -/
theorem C5_one_outreach_amended (parseJson : String → Option EmailJson)
    (smtp : Option String) (watcher : ReplyRecord) (lead : Lead) :
    (∀ content, parseJson (cleanContent content) = none →
      process_lead parseJson smtp watcher lead (.ok content)
        = .ok ([send_email_smtp smtp lead.contact_email (defaultSubject lead.company_name)
            (cleanContent content)], watcher)) ∧
    (∀ content s b, parseJson (cleanContent content) = some ⟨some s, some b⟩ →
      process_lead parseJson smtp watcher lead (.ok content)
        = .ok ([send_email_smtp smtp lead.contact_email s b], watcher)) ∧
    (∀ content err sends rec, smtp = some err →
      process_lead parseJson smtp watcher lead (.ok content) = .ok (sends, rec) →
      sends = [⟨lead.contact_email, "failed", none, some err⟩] ∧ rec = watcher) ∧
    (∀ e, process_lead parseJson smtp watcher lead (.error e)
      = .ok ([], ⟨lead.contact_email, none, "failed"⟩)) ∧
    (∀ content d, parseJson (cleanContent content) = some d →
      d.subject = none ∨ d.body = none →
      process_lead parseJson smtp watcher lead (.ok content) = .error "KeyError") ∧
    (∀ (runs : List LeadRun) (outs : List (List SendInfo × ReplyRecord)),
      interaction_agent_node parseJson runs = .ok outs →
      List.Forall₂ (fun run out =>
        process_lead parseJson run.smtpOutcome run.watcher run.lead run.llmOut = .ok out)
        runs outs) ∧
    (∀ (runs : List LeadRun) (run : LeadRun) (e : String), run ∈ runs →
      process_lead parseJson run.smtpOutcome run.watcher run.lead run.llmOut = .error e →
      ∃ e2, interaction_agent_node parseJson runs = .error e2) := by
  refine ⟨?_, ?_, ?_, fun e => rfl, ?_, ?_, ?_⟩
  · intro content hp
    simp only [process_lead, hp]
  · intro content s b hp
    simp only [process_lead, hp]
  · intro content err sends rec hsmtp hok
    subst hsmtp
    rcases hp : parseJson (cleanContent content) with _ | d
    · simp only [process_lead, hp, send_email_smtp] at hok
      injection hok with h
      injection h with h1 h2
      exact ⟨h1.symm, h2.symm⟩
    · rcases d with ⟨ds, db⟩
      rcases ds with _ | s
      · simp only [process_lead, hp] at hok
        exact Except.noConfusion hok
      · rcases db with _ | b
        · simp only [process_lead, hp] at hok
          exact Except.noConfusion hok
        · simp only [process_lead, hp, send_email_smtp] at hok
          injection hok with h
          injection h with h1 h2
          exact ⟨h1.symm, h2.symm⟩
  · intro content d hp hmiss
    rcases d with ⟨ds, db⟩
    rcases ds with _ | s
    · simp only [process_lead, hp]
    · rcases db with _ | b
      · simp only [process_lead, hp]
      · rcases hmiss with h | h <;> simp at h
  · intro runs
    induction runs with
    | nil =>
      intro outs hok
      simp only [interaction_agent_node] at hok
      injection hok with h
      subst h
      exact List.Forall₂.nil
    | cons run rest ih =>
      intro outs hok
      simp only [interaction_agent_node] at hok
      rcases hpl : process_lead parseJson run.smtpOutcome run.watcher run.lead run.llmOut
        with e | out
      · rw [hpl] at hok
        cases hok
      · rw [hpl] at hok
        rcases hg : interaction_agent_node parseJson rest with e | outs2
        · rw [hg] at hok
          cases hok
        · rw [hg] at hok
          injection hok with h
          subst h
          exact List.Forall₂.cons hpl (ih outs2 hg)
  · intro runs run e hmem hpl
    induction runs with
    | nil => cases hmem
    | cons head rest ih =>
      rcases List.mem_cons.mp hmem with heq | hmem2
      · subst heq
        exact ⟨e, by simp only [interaction_agent_node, hpl]⟩
      · rcases hph : process_lead parseJson head.smtpOutcome head.watcher head.lead head.llmOut
          with eh | outh
        · exact ⟨eh, by simp only [interaction_agent_node, hph]⟩
        · obtain ⟨e2, hrec⟩ := ih hmem2
          exact ⟨e2, by simp only [interaction_agent_node, hph, hrec]⟩

/-- C5 amended-claim witness: a failing SMTP session with undecodable
compose output still records exactly one failed entry and hands the lead
to the watcher, while a compose response parsing to a subject-less value
crashes the lead's task. -/
theorem C5_one_outreach_amended_witness :
    process_lead (fun _ => none) (some "SMTPAuthenticationError")
        ⟨"ceo@cloudx.com", none, "no_reply"⟩
        ⟨"CloudXpert Inc.", "SaaS", "desc", "ceo@cloudx.com"⟩ (.ok "Hello there")
      = .ok ([send_email_smtp (some "SMTPAuthenticationError") "ceo@cloudx.com"
          (defaultSubject "CloudXpert Inc.") (cleanContent "Hello there")],
        ⟨"ceo@cloudx.com", none, "no_reply"⟩) ∧
    process_lead (fun _ => some ⟨none, none⟩) none ⟨"ceo@cloudx.com", none, "no_reply"⟩
        ⟨"CloudXpert Inc.", "SaaS", "desc", "ceo@cloudx.com"⟩ (.ok "[1, 2]")
      = .error "KeyError" :=
  ⟨(C5_one_outreach_amended (fun _ => none) (some "SMTPAuthenticationError")
      ⟨"ceo@cloudx.com", none, "no_reply"⟩
      ⟨"CloudXpert Inc.", "SaaS", "desc", "ceo@cloudx.com"⟩).1 "Hello there" rfl,
   (C5_one_outreach_amended (fun _ => some ⟨none, none⟩) none
      ⟨"ceo@cloudx.com", none, "no_reply"⟩
      ⟨"CloudXpert Inc.", "SaaS", "desc", "ceo@cloudx.com"⟩).2.2.2.2.1 "[1, 2]"
      ⟨none, none⟩ rfl (Or.inl rfl)⟩

/-! ## Claim C6 -/

/-- C6: the supervisor invokes the scheduling stage only on responses
passing has_valid_reply (every response the stage receives satisfies the
predicate); when zero responses are valid, scheduling is skipped entirely
and the scheduled-meetings list is empty no matter what the stage would
have produced; and the scheduling engine itself skips any record whose
reply is absent or empty, leaving its state untouched. -/
theorem C6_valid_reply_gate :
    (∀ (sched : List ReplyRecord → List MeetingInfo) (responses : List ReplyRecord),
      responses.filter (fun r => has_valid_reply r) = [] →
        supervisorScheduling sched responses = []) ∧
    (∀ (responses : List ReplyRecord) (r : ReplyRecord),
      r ∈ responses.filter (fun r => has_valid_reply r) → has_valid_reply r = true) ∧
    (∀ (classify : String → Option IntentData)
      (api : String → DateTime → Except String String)
      (oracle : String → Option DateTime) (today : DateTime) (r : ReplyRecord)
      (acc : List MeetingInfo × List FollowUp),
      r.reply = none ∨ r.reply = some "" →
        processResponse classify api oracle today r acc = .ok acc) := by
  refine ⟨?_, ?_, ?_⟩
  · intro sched responses hempty
    simp only [supervisorScheduling, hempty]
    rfl
  · intro responses r hr
    exact (List.mem_filter.mp hr).2
  · intro classify api oracle today r acc habs
    rcases habs with habs | habs <;> simp only [processResponse, habs] <;> rfl

/-- C6 witness: a lone sentinel "No Reply" response short-circuits
scheduling even against a stage that would return a meeting, and the
engine skips an absent-reply record. -/
theorem C6_valid_reply_gate_witness :
    supervisorScheduling (fun _ => [⟨"junk@x.com", none, none, none⟩])
        [⟨"a@b.com", some "No Reply", "replied"⟩] = [] ∧
    processResponse (fun _ => none) (fun _ _ => .error "no api") (fun _ => none)
        ⟨2025, 11, 10, 9, 0, 0, 0⟩ ⟨"a@b.com", none, "no_reply"⟩ ([], [])
      = .ok ([], []) :=
  ⟨C6_valid_reply_gate.1 (fun _ => [⟨"junk@x.com", none, none, none⟩])
      [⟨"a@b.com", some "No Reply", "replied"⟩] (by rfl),
   C6_valid_reply_gate.2.2 (fun _ => none) (fun _ _ => .error "no api") (fun _ => none)
      ⟨2025, 11, 10, 9, 0, 0, 0⟩ ⟨"a@b.com", none, "no_reply"⟩ ([], []) (Or.inl rfl)⟩

/-! ## Claim C8 -/

/-- C8: a calendar-booking collaborator failure never escapes the
scheduling engine: create_calendar_event turns the raised error into a
record carrying the contact address and the error field, and the engine
still appends exactly that record to the scheduled-meetings collection, so
the lead counts as scheduled for bookkeeping. -/
theorem C8_booking_failure_recorded (classify : String → Option IntentData)
    (api : String → DateTime → Except String String)
    (oracle : String → Option DateTime) (today : DateTime) (r : ReplyRecord)
    (reply : String) (avail : Option String) (ms : List MeetingInfo)
    (fs : List FollowUp) (t : DateTime) (err : String)
    (h1 : r.reply = some reply) (h2 : reply ≠ "")
    (h3 : computeIntent (classify reply) reply = ⟨"positive", avail⟩)
    (h4 : extract_meeting_datetime oracle (chosenText avail reply) today = .ok (some t))
    (h5 : api r.email t = .error err) :
    create_calendar_event (api r.email t) r.email t = ⟨r.email, none, none, some err⟩ ∧
    processResponse classify api oracle today r (ms, fs)
      = .ok (ms ++ [⟨r.email, none, none, some err⟩], fs) := by
  have hcc : create_calendar_event (api r.email t) r.email t
      = ⟨r.email, none, none, some err⟩ := by
    rw [h5]
    rfl
  refine ⟨hcc, ?_⟩
  simp only [processResponse, h1, h2, h3, h4, hcc]
  simp [h2]

/-- C8 witness: a positive reply proposing "tomorrow 3pm" with a calendar
API whose credential load raises. -/
theorem C8_booking_failure_recorded_witness :
    processResponse (fun _ => some ⟨"positive", none⟩)
        (fun _ _ => .error "token.json not found") (fun _ => none)
        ⟨2025, 11, 10, 9, 0, 0, 0⟩ ⟨"ceo@acme.com", some "tomorrow 3pm", "replied"⟩ ([], [])
      = .ok ([⟨"ceo@acme.com", none, none, some "token.json not found"⟩], []) :=
  (C8_booking_failure_recorded (fun _ => some ⟨"positive", none⟩)
    (fun _ _ => .error "token.json not found") (fun _ => none) ⟨2025, 11, 10, 9, 0, 0, 0⟩
    ⟨"ceo@acme.com", some "tomorrow 3pm", "replied"⟩ "tomorrow 3pm" none [] []
    ⟨2025, 11, 11, 15, 0, 0, 0⟩ "token.json not found" rfl (by decide) (by rfl) (by rfl)
    rfl).2

/-! ## Claim C9 -/

/-- C9: one engine pass over a response creates at most one of a meeting
record or a follow-up record, never both; the response entries come back
from the engine exactly as they went in; and the supervisor normalization
is the only mutation, clearing a sentinel reply string into an actual
absent value and touching nothing else. -/
theorem C9_at_most_one_record :
    (∀ (classify : String → Option IntentData)
      (api : String → DateTime → Except String String)
      (oracle : String → Option DateTime) (today : DateTime) (r : ReplyRecord)
      (ms : List MeetingInfo) (fs : List FollowUp) (ms2 : List MeetingInfo)
      (fs2 : List FollowUp),
      processResponse classify api oracle today r (ms, fs) = .ok (ms2, fs2) →
        (ms2 = ms ∧ fs2 = fs) ∨ (∃ mi, ms2 = ms ++ [mi] ∧ fs2 = fs) ∨
          (∃ fu, ms2 = ms ∧ fs2 = fs ++ [fu])) ∧
    (∀ (classify : String → Option IntentData)
      (api : String → DateTime → Except String String)
      (oracle : String → Option DateTime) (today : DateTime)
      (responses : List ReplyRecord) (ms0 : List MeetingInfo) (fs0 : List FollowUp)
      (out : List ReplyRecord × List MeetingInfo × List FollowUp),
      scheduler_agent_node classify api oracle today responses ms0 fs0 = .ok out →
        out.1 = responses) ∧
    (∀ r : ReplyRecord, normalizeReply r = r ∨
      ∃ v, r.reply = some v ∧ sentinelSup v = true ∧
        normalizeReply r = ⟨r.email, none, r.status⟩) := by
  refine ⟨?_, ?_, ?_⟩
  · intro classify api oracle today r ms fs ms2 fs2 hok
    rcases hrep : r.reply with _ | reply
    · simp only [processResponse, hrep] at hok
      cases hok
      exact Or.inl ⟨rfl, rfl⟩
    · simp only [processResponse, hrep] at hok
      by_cases hre : reply = ""
      · rw [if_pos hre] at hok
        cases hok
        exact Or.inl ⟨rfl, rfl⟩
      · rw [if_neg hre] at hok
        by_cases hpos : (computeIntent (classify reply) reply).sentiment = "positive"
        · rw [if_pos hpos] at hok
          rcases hext : extract_meeting_datetime oracle
              (chosenText (computeIntent (classify reply) reply).availability reply) today
            with e | topt
          · rw [hext] at hok
            cases hok
          · rw [hext] at hok
            rcases topt with _ | t
            · cases hok
              exact Or.inr (Or.inr ⟨⟨r.email, "follow-up sent"⟩, rfl, rfl⟩)
            · cases hok
              exact Or.inr (Or.inl
                ⟨create_calendar_event (api r.email t) r.email t, rfl, rfl⟩)
        · rw [if_neg hpos] at hok
          cases hok
          exact Or.inl ⟨rfl, rfl⟩
  · intro classify api oracle today responses ms0 fs0 out hok
    simp only [scheduler_agent_node] at hok
    rcases hloop : schedLoop classify api oracle today responses (ms0, fs0) with e | acc
    · rw [hloop] at hok
      cases hok
    · rw [hloop] at hok
      cases hok
      rfl
  · intro r
    rcases hrep : r.reply with _ | v
    · exact Or.inl (by simp only [normalizeReply, hrep])
    · by_cases hs : sentinelSup v
      · exact Or.inr ⟨v, rfl, hs, by simp only [normalizeReply, hrep, if_pos hs]⟩
      · exact Or.inl (by simp only [normalizeReply, hrep, if_neg hs])

/-- C9 witness: a positive reply with no resolvable time produces exactly
the follow-up record and no meeting record. -/
theorem C9_at_most_one_record_witness :
    (([⟨"m@y.com", none, none, none⟩] : List MeetingInfo)
        = [⟨"m@y.com", none, none, none⟩] ∧
      ([⟨"p@x.com", "follow-up sent"⟩] : List FollowUp) = []) ∨
    (∃ mi, ([⟨"m@y.com", none, none, none⟩] : List MeetingInfo)
        = [⟨"m@y.com", none, none, none⟩] ++ [mi] ∧
      ([⟨"p@x.com", "follow-up sent"⟩] : List FollowUp) = []) ∨
    (∃ fu, ([⟨"m@y.com", none, none, none⟩] : List MeetingInfo)
        = [⟨"m@y.com", none, none, none⟩] ∧
      ([⟨"p@x.com", "follow-up sent"⟩] : List FollowUp) = [] ++ [fu]) :=
  C9_at_most_one_record.1 (fun _ => some ⟨"positive", none⟩) (fun _ _ => .error "no api")
    (fun _ => none) ⟨2025, 11, 10, 9, 0, 0, 0⟩
    ⟨"p@x.com", some "yes, happy to chat sometime", "replied"⟩
    [⟨"m@y.com", none, none, none⟩] [] [⟨"m@y.com", none, none, none⟩]
    [⟨"p@x.com", "follow-up sent"⟩] (by rfl)
